import Mathlib

/-!
Verification of the upload-to-validated-record pipeline of the
AI-Powered Customer Onboarding Agent repository.

The development shallowly embeds the Python sources:
  app/utils/file_utils.py   (save_and_validate_file)
  app/services/validation.py (OnboardingDataModel, validate_onboarding_data)
  app/api/upload.py          (upload_file, handle_pdf, handle_docx)
  app/auth.py + main.py      (create_access_token, verify_token, login)

Python strings are Lean Strings; the handful of Python string methods used
by the code (strip, lower, split, replace, isalpha, isdigit, basename,
pathlib stem/suffix) are re-implemented below over character lists so that
every definition is executable and kernel-reducible.  External libraries
(pandas, pdfplumber, python-docx, pydantic, jose) are modelled at the
granularity the code uses them.
-/

set_option autoImplicit false

/-- A Python value appearing in an extracted record field.  The pipeline
only ever feeds strings and ints into the age field (pandas/json rows,
`int(age)` from the PDF/DOCX extractors, raw strings from CSV rows). -/
inductive PyVal where
  | str (s : String)
  | int (n : Int)
deriving DecidableEq, Repr

/-- A raw record extracted from an uploaded file, prior to validation:
a mapping with keys name, email, age.  The claims under study only
exercise string-valued name and email fields, so those are fixed to
String; age keeps its dynamic type. -/
structure RawRecord where
  name : String
  email : String
  age : PyVal
deriving DecidableEq, Repr

/-- A record that passed `OnboardingDataModel` validation, as returned by
`.dict()`: name and email unchanged, age coerced to an integer. -/
structure ValidRecord where
  name : String
  email : String
  age : Int
deriving DecidableEq, Repr

/-- An HTTPException as raised by the FastAPI code: status code plus the
human-readable detail string. -/
structure HTTPError where
  status : Nat
  detail : String
deriving DecidableEq, Repr

/-- Boolean success test for `Except` results. -/
def isOkB {ε α : Type} : Except ε α → Bool
  | .ok _ => true
  | .error _ => false

/-! ## Python string primitives, over character lists -/

/-- Python `str.replace(" ", "")`: remove every space character. -/
def pyRemoveSpaces (s : String) : String :=
  String.mk (s.toList.filter (fun c => c != ' '))

/-- Python `str.isalpha()` restricted to ASCII letters: true on a
non-empty string all of whose characters are alphabetic.  (CPython is
Unicode-aware here; the repository data and the claims only involve
ASCII, which `Char.isAlpha` models exactly.) -/
def pyIsAlphaStr (s : String) : Bool :=
  !s.toList.isEmpty && s.toList.all Char.isAlpha

/-- Python `str.isdigit()` on ASCII digits: non-empty and all digits. -/
def pyIsDigitStr (s : String) : Bool :=
  !s.toList.isEmpty && s.toList.all Char.isDigit

/-- Value of an all-digit decimal string, as computed by Python `int`. -/
def intOfDigits (s : String) : Nat :=
  s.toList.foldl (fun n c => 10 * n + (c.toNat - '0'.toNat)) 0

/-- Python `str.strip()`: drop leading and trailing whitespace. -/
def pyStrip (s : String) : String :=
  String.mk (((s.toList.dropWhile Char.isWhitespace).reverse.dropWhile
      Char.isWhitespace).reverse)

/-- Python `str.lower()` on ASCII. -/
def pyLower (s : String) : String :=
  String.mk (s.toList.map Char.toLower)

/-- Helper for Python `str.split()` with no separator: accumulate the
current token (reversed) while walking the characters. -/
def wsSplitAux : List Char → List Char → List (List Char)
  | cur, [] => if cur.isEmpty then [] else [cur.reverse]
  | cur, c :: cs =>
    if Char.isWhitespace c then
      if cur.isEmpty then wsSplitAux [] cs else cur.reverse :: wsSplitAux [] cs
    else wsSplitAux (c :: cur) cs

/-- Python `str.split()`: split on runs of whitespace, dropping empties. -/
def pySplitWs (s : String) : List String :=
  (wsSplitAux [] s.toList).map String.mk

/-- Helper for Python `str.split("\n")`. -/
def nlSplitAux : List Char → List Char → List (List Char)
  | cur, [] => [cur.reverse]
  | cur, c :: cs =>
    if c == '\n' then cur.reverse :: nlSplitAux [] cs else nlSplitAux (c :: cur) cs

/-- Python `text.split("\n")`: split on every newline, keeping empties. -/
def pySplitLines (s : String) : List String :=
  (nlSplitAux [] s.toList).map String.mk

/-- `os.path.basename` on POSIX: the part after the last slash. -/
def pyBasename (s : String) : String :=
  String.mk ((s.toList.reverse.takeWhile (fun c => c != '/')).reverse)

/-- Index (from the front) of the last dot of the list, if any. -/
def lastDotPos : List Char → Option Nat
  | [] => none
  | c :: cs =>
    match lastDotPos cs with
    | some i => some (i + 1)
    | none => if c == '.' then some 0 else none

/-- `pathlib.PurePath.suffix` of a final path component: the substring
from the last dot, provided that dot is neither the first nor the last
character; otherwise the empty string. -/
def pathSuffix (s : String) : String :=
  match lastDotPos s.toList with
  | none => ""
  | some i =>
    if 0 < i ∧ i + 1 < s.toList.length then String.mk (s.toList.drop i) else ""

/-- `pathlib.PurePath.stem`: the component with its suffix removed. -/
def pathStem (s : String) : String :=
  match lastDotPos s.toList with
  | none => s
  | some i =>
    if 0 < i ∧ i + 1 < s.toList.length then String.mk (s.toList.take i) else s

/-! ## Record validation (app/services/validation.py, pydantic v2 model)

`OnboardingDataModel` declares:
  name  : str, Field(min_length=1) plus a validator requiring
          `v.replace(" ", "").isalpha()`;
  email : str, Field(pattern=r"[^@]+@[^@]+\.[^@]+"), enforced by pydantic
          as an unanchored regex search;
  age   : int, Field(gt=0), with lax coercion of integer-literal strings.
pydantic validates the fields in declaration order and collects one error
per failing field; `validate_onboarding_data` turns the error list into a
ValueError whose first entry upload.py later inspects. -/

/-- The field names of `OnboardingDataModel`, in declaration order. -/
inductive RecField where
  | name
  | email
  | age
deriving DecidableEq, Repr

/-- The `loc[0]` label pydantic reports for a field error. -/
def fieldLabel : RecField → String
  | .name => "name"
  | .email => "email"
  | .age => "age"

/-- The name checks: `min_length=1`, then the custom validator
`v.replace(" ", "").isalpha()`. -/
def nameFails (s : String) : Bool :=
  decide (s.toList.length < 1) || !pyIsAlphaStr (pyRemoveSpaces s)

/-- Unanchored search for the pattern `[^@]+@[^@]+\.[^@]+`, which is how
pydantic applies a `pattern` constraint.  A match is a contiguous
substring a@b.c with a, b, c non-empty runs of non-@ characters; one
exists iff there are positions p of an `@` and q of a `.` such that the
character before the `@`, every character strictly between them, and the
character after the `.` all exist and differ from `@`, with at least one
character strictly between p and q. -/
def emailSearch (s : String) : Bool :=
  let cs := s.toList
  let n := cs.length
  (List.range n).any fun p =>
    (List.range n).any fun q =>
      decide (1 ≤ p) && decide (p + 2 ≤ q) && decide (q + 1 < n) &&
      (cs.getD p ' ' == '@') && (cs.getD (p - 1) ' ' != '@') &&
      (cs.getD q ' ' == '.') && (cs.getD (q + 1) ' ' != '@') &&
      ((List.range n).all fun t =>
        !(decide (p < t) && decide (t < q)) || (cs.getD t ' ' != '@'))

/-- pydantic lax coercion of an age value to int.  Ints pass through;
strings are parsed when they are decimal integer literals.  (Only the
all-digit string forms exercised by the code and the claims are
modelled.) -/
def pyIntLax : PyVal → Option Int
  | .int n => some n
  | .str s => if pyIsDigitStr s then some (intOfDigits s : Int) else none

/-- The age checks: coercion to int, then `gt=0`. -/
def ageResult (v : PyVal) : Except Unit Int :=
  match pyIntLax v with
  | none => .error ()
  | some n => if n ≤ 0 then .error () else .ok n

/-- The pydantic error list for a record: one entry per failing field, in
field declaration order. -/
def fieldErrors (r : RawRecord) : List RecField :=
  (if nameFails r.name then [RecField.name] else []) ++
  (if emailSearch r.email then [] else [RecField.email]) ++
  (match ageResult r.age with | .ok _ => [] | .error _ => [RecField.age])

/-- `validate_onboarding_data`: returns the validated record as a dict
(name and email unchanged, age coerced) or raises a ValueError carrying
the pydantic error list. -/
def validateOnboardingData (r : RawRecord) : Except (List RecField) ValidRecord :=
  if fieldErrors r = [] then
    match ageResult r.age with
    | .ok n => .ok ⟨r.name, r.email, n⟩
    | .error _ => .error [RecField.age]
  else .error (fieldErrors r)

/-! ## File materializer (app/utils/file_utils.py)

`save_and_validate_file` takes the upload filename, strips directory
components with `os.path.basename`, rejects extensions outside the
allowed set, disambiguates a collision with the current unix time, and
writes the bytes.  The state of the uploads directory is modelled as the
list of file names it contains; a successful save returns the chosen
name (within the directory) and the new directory state. -/

/-- Contents of the `uploads/` directory. -/
structure SaveState where
  existing : List String
deriving DecidableEq, Repr

/-- The allowed extensions, exactly as listed in file_utils.py. -/
def allowedExtensions : List String :=
  [".csv", ".xlsx", ".pdf", ".docx", ".json"]

/-- The collision rename `f"{file_path.stem}_{timestamp}{file_path.suffix}"`
for the (already basename-stripped) final component of the target path. -/
def timestampName (f : String) (now : Nat) : String :=
  pathStem (pyBasename f) ++ "_" ++ toString now ++ pathSuffix (pyBasename f)

/-- `save_and_validate_file(file)` with upload name `origName` at unix
time `now`, acting on directory state `st`. -/
def saveAndValidateFile (st : SaveState) (now : Nat) (origName : String) :
    Except HTTPError (String × SaveState) :=
  let filename := pyBasename origName
  if pathSuffix filename ∉ allowedExtensions then
    .error ⟨400, "Unsupported file type"⟩
  else
    let target := if filename ∈ st.existing then timestampName origName now else filename
    .ok (target, ⟨target :: st.existing⟩)

/-! ## PDF extraction (app/api/upload.py, handle_pdf)

upload.py never imports the `re` module, yet `handle_pdf` evaluates
`re.match(r'^\d+$', age)` on every line that has a token containing `@`
followed by at least one further token.  Reaching that expression
therefore raises `NameError: name 're' is not defined`; the blanket
`except Exception` of `handle_pdf` converts it into
`HTTPException(400, "Error processing PDF file: name 're' is not defined")`.
If no line reaches the expression, no record is ever appended, so the
`HTTPException(400, "No valid data found in the PDF")` raised inside the
same `try` is itself caught by the blanket `except` and re-wrapped using
`str(e)`, which for a starlette HTTPException is "400: <detail>".
Consequently `handle_pdf` can never return a record list. -/

/-- Index of the first token containing a `@`, mirroring
`next((i for i, word in enumerate(columns) if "@" in word), -1)`. -/
def firstAtIdx : List String → Nat → Option Nat
  | [], _ => none
  | w :: ws, i => if w.toList.contains '@' then some i else firstAtIdx ws (i + 1)

/-- Whether processing a PDF text line reaches the `re.match` call: the
line is not skipped as header or blank, some token contains `@`, and a
further token follows it. -/
def lineReachesReMatch (line : String) : Bool :=
  if "name".toList.isPrefixOf (pyLower (pyStrip line)).toList || pyStrip line == "" then
    false
  else
    match firstAtIdx (pySplitWs line) 0 with
    | none => false
    | some i => decide (i + 1 < (pySplitWs line).length)

/-- `handle_pdf`, applied to the text `page.extract_text()` yields for
each page (`none` models a page whose extraction returns None and is
skipped by the `if text:` guard). -/
def handlePdf (pages : List (Option String)) : Except HTTPError (List RawRecord) :=
  let allLines := pages.foldr
    (fun p acc => (match p with | some t => pySplitLines t | none => []) ++ acc) []
  if allLines.any lineReachesReMatch then
    .error ⟨400, "Error processing PDF file: name \x27re\x27 is not defined"⟩
  else
    .error ⟨400, "Error processing PDF file: 400: No valid data found in the PDF"⟩

/-! ## DOCX extraction (app/api/upload.py, handle_docx)

Tables are lists of rows; a row is the list of its cell texts.  Row 0 of
every table is skipped; cells 0/1/2 are stripped and become
name/email/age, the row being kept only when the age text is all digits.
Accessing a missing cell raises IndexError, which the blanket `except`
wraps; an empty result raises HTTPException(400) inside the `try`, which
the same `except` re-wraps via `str(e)`. -/

/-- Rows of one table, starting at enumeration index `i`. -/
def docxRows : Nat → List (List String) → Except HTTPError (List RawRecord)
  | _, [] => .ok []
  | i, cells :: rest =>
    if i == 0 then docxRows (i + 1) rest
    else
      match cells with
      | c0 :: c1 :: c2 :: _ =>
        let age := pyStrip c2
        match docxRows (i + 1) rest with
        | .error e => .error e
        | .ok rs =>
          .ok (if pyIsDigitStr age then
                ⟨pyStrip c0, pyStrip c1, .int (intOfDigits age)⟩ :: rs
              else rs)
      | _ => .error ⟨400, "Error processing DOCX file: list index out of range"⟩

/-- All tables of the document, in order. -/
def docxTablesExtract : List (List (List String)) → Except HTTPError (List RawRecord)
  | [] => .ok []
  | t :: ts =>
    match docxRows 0 t with
    | .error e => .error e
    | .ok rs =>
      match docxTablesExtract ts with
      | .error e => .error e
      | .ok rs2 => .ok (rs ++ rs2)

/-- `handle_docx`. -/
def handleDocx (tables : List (List (List String))) : Except HTTPError (List RawRecord) :=
  match docxTablesExtract tables with
  | .error e => .error e
  | .ok recs =>
    if recs.isEmpty then
      .error ⟨400, "Error processing DOCX file: 400: No valid data found in the DOCX file"⟩
    else .ok recs

/-! ## The upload endpoint (app/api/upload.py, upload_file)

The whole body runs inside `try: ... except Exception as e:` which
re-raises every exception - including the HTTPException(400) values the
body itself constructs - as
`HTTPException(500, f"An error occurred: {str(e)}")`.
`str` of a starlette HTTPException is "<status>: <detail>".

An upload request carries the file name, the declared content type, and
the data the external parsers would produce from its bytes: the rows
pandas would parse (JSON/CSV/Excel), the page texts pdfplumber would
extract, and the tables python-docx would read. -/

structure UploadReq where
  filename : String
  contentType : String
  tableRows : List RawRecord
  pdfPages : List (Option String)
  docxTables : List (List (List String))

/-- Dispatch on the declared content type (upload.py lines 44-57). -/
def extractStep (req : UploadReq) : Except HTTPError (List RawRecord) :=
  if req.contentType = "application/json" then .ok req.tableRows
  else if req.contentType = "text/csv" then .ok req.tableRows
  else if req.contentType = "application/vnd.ms-excel" ∨
      req.contentType = "application/vnd.openxmlformats-officedocument.spreadsheetml.sheet" then
    .ok req.tableRows
  else if req.contentType = "application/pdf" then handlePdf req.pdfPages
  else if req.contentType =
      "application/vnd.openxmlformats-officedocument.wordprocessingml.document" then
    handleDocx req.docxTables
  else .error ⟨400, "Unsupported file type"⟩

/-- The validation loop (upload.py lines 58-69): entries are validated in
order; the first ValueError aborts the batch with a 400 whose detail
names `loc[0]` of the first pydantic error of that record. -/
def validateEntries : List RawRecord → Except HTTPError (List ValidRecord)
  | [] => .ok []
  | r :: rs =>
    match validateOnboardingData r with
    | .ok v =>
      match validateEntries rs with
      | .ok vs => .ok (v :: vs)
      | .error e => .error e
    | .error errs =>
      .error ⟨400, "Validation error in " ++ fieldLabel (errs.headD RecField.name) ++
        " column data"⟩

/-- The body of the `try` block: save, extract, validate. -/
def uploadInner (st : SaveState) (now : Nat) (req : UploadReq) :
    Except HTTPError (List ValidRecord) :=
  match saveAndValidateFile st now req.filename with
  | .error e => .error e
  | .ok _ =>
    match extractStep req with
    | .error e => .error e
    | .ok raw => validateEntries raw

/-- `str(e)` for a caught starlette HTTPException. -/
def httpErrStr (e : HTTPError) : String :=
  toString e.status ++ ": " ++ e.detail

/-- Result of one upload request: the HTTP response, and the payload that
was forwarded to the SaaS endpoint (`none` when `send_data_to_saas_api`
was never called). -/
structure UploadOutcome where
  response : Except HTTPError String
  forwarded : Option (List ValidRecord)
deriving Repr

/-- `upload_file` after authentication: the `except Exception` wrapper
turns every failure of the body into a 500 embedding the exception
text; only a fully successful run forwards the validated batch. -/
def uploadFile (st : SaveState) (now : Nat) (req : UploadReq) : UploadOutcome :=
  match uploadInner st now req with
  | .ok vs =>
    ⟨.ok "File uploaded, data validated, saved, and successfully sent to the SaaS platform.",
      some vs⟩
  | .error e => ⟨.error ⟨500, "An error occurred: " ++ httpErrStr e⟩, none⟩

/-! ## Token service (app/auth.py, main.py)

A JWT is modelled as either a well-formed token signed with some key and
carrying a payload, or an unparsable blob.  `jwt.decode` checks the
signature, then the `exp` claim (jose rejects exactly when exp < now,
leeway 0); `verify_token` then rejects a missing `sub`.  All four
failures raise the same HTTPException(401). -/

structure JwtPayload where
  sub : Option String
  exp : Nat
deriving DecidableEq, Repr

inductive Jwt where
  | signed (key : String) (payload : JwtPayload)
  | malformed (blob : String)
deriving DecidableEq, Repr

/-- auth.py: `ACCESS_TOKEN_EXPIRE_MINUTES = 30`. -/
def ACCESS_TOKEN_EXPIRE_MINUTES : Nat := 30

/-- `create_access_token(data, expires_delta)`: expiry is now plus the
supplied delta, defaulting to `timedelta(minutes=15)`; times in seconds. -/
def createAccessToken (key : String) (sub : Option String) (now : Nat)
    (expiresDelta : Option Nat) : Jwt :=
  .signed key ⟨sub, now + expiresDelta.getD (15 * 60)⟩

/-- The token the `/login` handler issues (main.py):
`create_access_token(data={"sub": username}, expires_delta=timedelta(minutes=ACCESS_TOKEN_EXPIRE_MINUTES))`. -/
def loginToken (key username : String) (now : Nat) : Jwt :=
  createAccessToken key (some username) now (some (ACCESS_TOKEN_EXPIRE_MINUTES * 60))

/-- The HTTPException(401) raised for every verification failure. -/
def authError : HTTPError :=
  ⟨401, "Invalid authentication credentials"⟩

/-- `verify_token`. -/
def verifyToken (key : String) (now : Nat) : Jwt → Except HTTPError String
  | .malformed _ => .error authError
  | .signed k p =>
    if k ≠ key then .error authError
    else if p.exp < now then .error authError
    else
      match p.sub with
      | none => .error authError
      | some u => .ok u

/-! ## Helper lemmas -/

theorem toList_mk (l : List Char) : (String.mk l).toList = l := rfl

theorem toList_append (a b : String) : (a ++ b).toList = a.toList ++ b.toList := by
  cases a; cases b; rfl

theorem append_empty_str (s : String) : s ++ "" = s := by
  cases s with
  | mk d => show String.mk (d ++ []) = String.mk d; rw [List.append_nil]

theorem stem_append_suffix (s : String) : pathStem s ++ pathSuffix s = s := by
  unfold pathStem pathSuffix
  cases h : lastDotPos s.toList with
  | none => simp only [h]; exact append_empty_str s
  | some i =>
    simp only [h]
    by_cases hc : 0 < i ∧ i + 1 < s.toList.length
    · rw [if_pos hc, if_pos hc]
      show String.mk (s.toList.take i ++ s.toList.drop i) = s
      rw [List.take_append_drop]
      cases s; rfl
    · rw [if_neg hc, if_neg hc]
      exact append_empty_str s

theorem pyBasename_idem (s : String) : pyBasename (pyBasename s) = pyBasename s := by
  unfold pyBasename
  rw [toList_mk, List.reverse_reverse, List.takeWhile_idem]

theorem timestampName_ne (f : String) (now : Nat) :
    timestampName f now ≠ pyBasename f := by
  intro h
  have hlen := congrArg (fun s : String => s.toList.length) h
  have hsa := congrArg (fun s : String => s.toList.length)
    (stem_append_suffix (pyBasename f))
  simp only [timestampName, toList_append, List.length_append] at hlen hsa
  have hu : ("_" : String).toList.length = 1 := rfl
  rw [hu] at hlen
  omega

/-! ## Claim theorems -/

/-- Claim C1 (code bug): an upload of "data.txt" with content type
"text/plain" is a pipeline failure for a non-auth reason (unsupported
file type), yet the response surfaced to the caller is not the 400 the
claim describes: the blanket `except Exception` catches the
HTTPException(400, "Unsupported file type") the body raised and converts
it into a 500 whose detail embeds the 400 as text.  Nothing is
forwarded. -/
theorem upload_unsupported_type_surfaces_500 :
    uploadFile ⟨[]⟩ 0 ⟨"data.txt", "text/plain", [], [], []⟩ =
      ⟨.error ⟨500, "An error occurred: 400: Unsupported file type"⟩, none⟩ := by
  rfl

/-- Claim C2 (code bug): a PDF whose only text line is
"John Doe john@example.com 30" satisfies the claimed extraction pattern
(tokens before the first @-token form the name, the @-token is the
email, the all-digit trailing token is the age), so the claim says the
record is accepted.  Instead, because upload.py never imports `re`,
evaluating `re.match` on that line raises NameError and extraction
fails; and a document with no such line still cannot yield records, its
zero-record HTTPException being re-wrapped by the same blanket handler. -/
theorem handle_pdf_never_extracts :
    handlePdf [some "John Doe john@example.com 30"] =
      .error ⟨400, "Error processing PDF file: name \x27re\x27 is not defined"⟩ ∧
    handlePdf [some "Name Email Age"] =
      .error ⟨400, "Error processing PDF file: 400: No valid data found in the PDF"⟩ := by
  exact ⟨rfl, rfl⟩

/-- Claim C3: a record whose email admits no substring matching
`[^@]+@[^@]+\.[^@]+` fails validation. -/
theorem invalid_email_rejected (r : RawRecord) (h : emailSearch r.email = false) :
    isOkB (validateOnboardingData r) = false := by
  have hne : fieldErrors r ≠ [] := by
    simp [fieldErrors, h]
  unfold validateOnboardingData
  rw [if_neg hne]
  rfl

/-- Witness for C3 at the record (John, invalid, 5). -/
theorem invalid_email_rejected_witness :
    emailSearch "invalid" = false ∧
    isOkB (validateOnboardingData ⟨"John", "invalid", .int 5⟩) = false :=
  ⟨by decide, invalid_email_rejected ⟨"John", "invalid", .int 5⟩ (by decide)⟩

/-- Claim C5: `save_and_validate_file` first strips directory components
(its behaviour depends only on the basename of the upload name), and the
extension check runs before collision handling: a disallowed extension
is rejected for every directory state, in particular when a file of that
name already exists. -/
theorem save_strips_dirs_and_checks_extension_first
    (st : SaveState) (now : Nat) (f : String) :
    saveAndValidateFile st now f = saveAndValidateFile st now (pyBasename f) ∧
    (pathSuffix (pyBasename f) ∉ allowedExtensions →
      saveAndValidateFile st now f = .error ⟨400, "Unsupported file type"⟩) := by
  constructor
  · simp only [saveAndValidateFile, timestampName, pyBasename_idem]
  · intro h
    unfold saveAndValidateFile
    rw [if_pos h]

/-- Witness for C5: "../evil.txt" is rejected although "evil.txt" is
already present in the uploads directory, and saving it is the same as
saving its basename. -/
theorem save_strips_dirs_and_checks_extension_first_witness :
    saveAndValidateFile ⟨["evil.txt"]⟩ 7 "../evil.txt" =
      saveAndValidateFile ⟨["evil.txt"]⟩ 7 (pyBasename "../evil.txt") ∧
    pathSuffix (pyBasename "../evil.txt") ∉ allowedExtensions ∧
    saveAndValidateFile ⟨["evil.txt"]⟩ 7 "../evil.txt" =
      .error ⟨400, "Unsupported file type"⟩ :=
  ⟨(save_strips_dirs_and_checks_extension_first ⟨["evil.txt"]⟩ 7 "../evil.txt").1,
    by decide,
    (save_strips_dirs_and_checks_extension_first ⟨["evil.txt"]⟩ 7 "../evil.txt").2
      (by decide)⟩

/-- Claim C10: the extension check compares exact strings, so an
extension differing from an allowed one only by letter case is rejected,
and a filename with no extension at all (empty pathlib suffix) is
rejected. -/
theorem extension_check_case_sensitive :
    (∀ (st : SaveState) (now : Nat) (f : String),
      pathSuffix (pyBasename f) ∉ allowedExtensions →
      pyLower (pathSuffix (pyBasename f)) ∈ allowedExtensions →
      saveAndValidateFile st now f = .error ⟨400, "Unsupported file type"⟩) ∧
    (∀ (st : SaveState) (now : Nat) (f : String),
      pathSuffix (pyBasename f) = "" →
      saveAndValidateFile st now f = .error ⟨400, "Unsupported file type"⟩) := by
  constructor
  · intro st now f h _
    unfold saveAndValidateFile
    rw [if_pos h]
  · intro st now f h
    unfold saveAndValidateFile
    rw [if_pos (by rw [h]; decide)]

/-- Witness for C10 at "DATA.CSV" (case-differing extension) and "noext"
(no extension). -/
theorem extension_check_case_sensitive_witness :
    (pathSuffix (pyBasename "DATA.CSV") ∉ allowedExtensions ∧
      pyLower (pathSuffix (pyBasename "DATA.CSV")) ∈ allowedExtensions ∧
      saveAndValidateFile ⟨[]⟩ 0 "DATA.CSV" = .error ⟨400, "Unsupported file type"⟩) ∧
    (pathSuffix (pyBasename "noext") = "" ∧
      saveAndValidateFile ⟨[]⟩ 0 "noext" = .error ⟨400, "Unsupported file type"⟩) :=
  ⟨⟨by decide, by decide,
      extension_check_case_sensitive.1 ⟨[]⟩ 0 "DATA.CSV" (by decide) (by decide)⟩,
    ⟨by decide, extension_check_case_sensitive.2 ⟨[]⟩ 0 "noext" (by decide)⟩⟩

/-- Claim C6: with an allowed extension, saving a fresh name stores it
as-is; a second save of the same name collides and is stored under
`stem_<unixtime>suffix`, a name distinct from the first, so the second
upload does not overwrite the first (and, in general, any colliding save
is renamed this way). -/
theorem save_collision_timestamp_rename
    (st : SaveState) (f : String) (t1 t2 : Nat)
    (hsuf : pathSuffix (pyBasename f) ∈ allowedExtensions) :
    (pyBasename f ∈ st.existing →
      saveAndValidateFile st t1 f =
        .ok (timestampName f t1, ⟨timestampName f t1 :: st.existing⟩) ∧
      timestampName f t1 ≠ pyBasename f) ∧
    (pyBasename f ∉ st.existing →
      saveAndValidateFile st t1 f =
        .ok (pyBasename f, ⟨pyBasename f :: st.existing⟩) ∧
      saveAndValidateFile ⟨pyBasename f :: st.existing⟩ t2 f =
        .ok (timestampName f t2,
          ⟨timestampName f t2 :: pyBasename f :: st.existing⟩) ∧
      timestampName f t2 ≠ pyBasename f) := by
  have hnn : ¬ pathSuffix (pyBasename f) ∉ allowedExtensions := not_not_intro hsuf
  constructor
  · intro hmem
    refine ⟨?_, timestampName_ne f t1⟩
    unfold saveAndValidateFile
    rw [if_neg hnn, if_pos hmem]
  · intro hmem
    refine ⟨?_, ?_, timestampName_ne f t2⟩
    · unfold saveAndValidateFile
      rw [if_neg hnn, if_neg hmem]
    · unfold saveAndValidateFile
      rw [if_neg hnn, if_pos (List.mem_cons_self _ _)]

/-- Witness for C6: two sequential saves of "data.csv" into an empty
uploads directory at times 0 and 1. -/
theorem save_collision_timestamp_rename_witness :
    saveAndValidateFile ⟨[]⟩ 0 "data.csv" = .ok ("data.csv", ⟨["data.csv"]⟩) ∧
    saveAndValidateFile ⟨["data.csv"]⟩ 1 "data.csv" =
      .ok (timestampName "data.csv" 1, ⟨[timestampName "data.csv" 1, "data.csv"]⟩) ∧
    timestampName "data.csv" 1 ≠ "data.csv" :=
  (save_collision_timestamp_rename ⟨[]⟩ "data.csv" 0 1 (by decide)).2 (by decide)

/-- Claim C7: token issuance defaults to a 15-minute ttl when the caller
supplies no expiry; the login path always issues a 30-minute expiry;
verification fails exactly when the token is unparsable, signed with the
wrong key, past its expiry, or missing the sub claim; and a freshly
issued login token verifies successfully. -/
theorem token_ttl_and_verification :
    (∀ (key : String) (sub : Option String) (now : Nat),
      createAccessToken key sub now none = .signed key ⟨sub, now + 15 * 60⟩) ∧
    (∀ (key u : String) (now : Nat),
      loginToken key u now = .signed key ⟨some u, now + 30 * 60⟩) ∧
    (∀ (key : String) (now : Nat) (t : Jwt),
      isOkB (verifyToken key now t) = false ↔
        (∃ blob, t = .malformed blob) ∨
        (∃ k p, t = .signed k p ∧ (k ≠ key ∨ p.exp < now ∨ p.sub = none))) ∧
    (∀ (key u : String) (now : Nat),
      verifyToken key now (loginToken key u now) = .ok u) := by
  refine ⟨fun _ _ _ => rfl, fun _ _ _ => rfl, ?_, ?_⟩
  · intro key now t
    cases t with
    | malformed blob => simp [verifyToken, isOkB]
    | signed k p =>
      simp only [verifyToken]
      constructor
      · intro h
        refine .inr ⟨k, p, rfl, ?_⟩
        by_cases hk : k = key
        · rw [if_neg (not_not_intro hk)] at h
          by_cases he : p.exp < now
          · exact .inr (.inl he)
          · rw [if_neg he] at h
            cases hs : p.sub with
            | none => exact .inr (.inr rfl)
            | some u => rw [hs] at h; simp [isOkB] at h
        · exact .inl hk
      · rintro (⟨blob, hblob⟩ | ⟨k2, p2, heq, hbad⟩)
        · exact absurd hblob (by simp)
        · cases heq
          rcases hbad with hk | he | hs
          · rw [if_pos hk]; rfl
          · by_cases hk : k ≠ key
            · rw [if_pos hk]; rfl
            · rw [if_neg hk, if_pos he]; rfl
          · by_cases hk : k ≠ key
            · rw [if_pos hk]; rfl
            · rw [if_neg hk]
              by_cases he : p.exp < now
              · rw [if_pos he]; rfl
              · rw [if_neg he, hs]; rfl
  · intro key u now
    show verifyToken key now (.signed key ⟨some u, now + 30 * 60⟩) = .ok u
    simp only [verifyToken]
    rw [if_neg (not_not_intro rfl), if_neg (by omega)]

/-- Witness for C7 at key "k", user "alice", time 5. -/
theorem token_ttl_and_verification_witness :
    createAccessToken "k" (some "alice") 0 none = .signed "k" ⟨some "alice", 900⟩ ∧
    loginToken "k" "alice" 5 = .signed "k" ⟨some "alice", 5 + 30 * 60⟩ ∧
    verifyToken "k" 5 (loginToken "k" "alice" 5) = .ok "alice" :=
  ⟨token_ttl_and_verification.1 "k" (some "alice") 0,
    token_ttl_and_verification.2.1 "k" "alice" 5,
    token_ttl_and_verification.2.2.2 "k" "alice" 5⟩

/-! ## Claim C4: batch abort on first invalid record -/

/-- Index of the first record of a batch that fails validation. -/
def firstInvalidIdx? : List RawRecord → Option Nat
  | [] => none
  | r :: rs =>
    if fieldErrors r = [] then (firstInvalidIdx? rs).map (· + 1) else some 0

theorem validate_ok_of_no_errors (r : RawRecord) (h : fieldErrors r = []) :
    ∃ v, validateOnboardingData r = .ok v := by
  cases hAge : ageResult r.age with
  | error e =>
    exfalso
    unfold fieldErrors at h
    rw [hAge] at h
    simp [List.append_eq_nil] at h
  | ok n =>
    refine ⟨⟨r.name, r.email, n⟩, ?_⟩
    unfold validateOnboardingData
    rw [if_pos h, hAge]

theorem validateEntries_first_invalid (rs : List RawRecord) (i : Nat)
    (r : RawRecord) (f : RecField) (fs : List RecField)
    (hidx : firstInvalidIdx? rs = some i) (hget : rs[i]? = some r)
    (hf : fieldErrors r = f :: fs) :
    validateEntries rs =
      .error ⟨400, "Validation error in " ++ fieldLabel f ++ " column data"⟩ := by
  induction rs generalizing i with
  | nil => simp [firstInvalidIdx?] at hidx
  | cons r0 rest ih =>
    unfold firstInvalidIdx? at hidx
    by_cases h0 : fieldErrors r0 = []
    · rw [if_pos h0] at hidx
      obtain ⟨j, hj, hji⟩ := Option.map_eq_some'.mp hidx
      obtain ⟨v, hv⟩ := validate_ok_of_no_errors r0 h0
      subst hji
      rw [List.getElem?_cons_succ] at hget
      unfold validateEntries
      rw [hv, ih j hj hget]
    · rw [if_neg h0] at hidx
      have hi : i = 0 := by
        cases hidx; rfl
      subst hi
      rw [List.getElem?_cons_zero] at hget
      cases hget
      have hverr : validateOnboardingData r = .error (fieldErrors r) := by
        unfold validateOnboardingData
        rw [if_neg h0]
      unfold validateEntries
      rw [hverr, hf]
      rfl

/-- Counterexample for C4: the surfaced validation error carries the
field name but not the record index.  A batch whose first record is
invalid and a batch whose second record is invalid produce identical
errors, so no reader of the error can recover the index. -/
theorem validation_error_omits_record_index :
    validateEntries [⟨"John3", "a@b.c", .int 5⟩] =
      .error ⟨400, "Validation error in name column data"⟩ ∧
    validateEntries [⟨"Jane", "a@b.c", .int 30⟩, ⟨"John3", "a@b.c", .int 5⟩] =
      .error ⟨400, "Validation error in name column data"⟩ ∧
    firstInvalidIdx? [⟨"John3", "a@b.c", .int 5⟩] = some 0 ∧
    firstInvalidIdx? [⟨"Jane", "a@b.c", .int 30⟩, ⟨"John3", "a@b.c", .int 5⟩] =
      some 1 := by
  refine ⟨?_, ?_, by decide, by decide⟩
  · rfl
  · rfl

/-- Claim C4 as amended: if any record of the extracted batch is
invalid, the batch fails with a 400 naming the first pydantic field
error of the first failing record (but no record index), the whole batch
is aborted with no partial success, and nothing is forwarded to the
SaaS endpoint. -/
theorem first_invalid_record_aborts_batch
    (st : SaveState) (now : Nat) (req : UploadReq) (rs : List RawRecord)
    (i : Nat) (r : RawRecord) (f : RecField) (fs : List RecField)
    (hidx : firstInvalidIdx? rs = some i) (hget : rs[i]? = some r)
    (hf : fieldErrors r = f :: fs)
    (hct : req.contentType = "text/csv") (hrows : req.tableRows = rs) :
    validateEntries rs =
      .error ⟨400, "Validation error in " ++ fieldLabel f ++ " column data"⟩ ∧
    (uploadFile st now req).forwarded = none ∧
    isOkB (uploadFile st now req).response = false := by
  have hval := validateEntries_first_invalid rs i r f fs hidx hget hf
  refine ⟨hval, ?_⟩
  have hinner : ∃ e, uploadInner st now req = .error e := by
    unfold uploadInner
    cases saveAndValidateFile st now req.filename with
    | error e => exact ⟨e, rfl⟩
    | ok p =>
      have hext : extractStep req = .ok rs := by
        unfold extractStep
        rw [hct]
        rw [if_neg (by decide), if_pos rfl]
        exact congrArg Except.ok hrows
      dsimp only
      rw [hext]
      dsimp only
      rw [hval]
      exact ⟨_, rfl⟩
  obtain ⟨e, he⟩ := hinner
  unfold uploadFile
  rw [he]
  exact ⟨rfl, rfl⟩

/-- Witness for the amended C4: a CSV upload whose second row has a
non-alphabetic name. -/
theorem first_invalid_record_aborts_batch_witness :
    validateEntries [⟨"Jane", "jane@x.com", .int 30⟩, ⟨"John3", "a@b.c", .int 5⟩] =
      .error ⟨400, "Validation error in name column data"⟩ ∧
    (uploadFile ⟨[]⟩ 0
        ⟨"data.csv", "text/csv",
          [⟨"Jane", "jane@x.com", .int 30⟩, ⟨"John3", "a@b.c", .int 5⟩], [], []⟩).forwarded =
      none ∧
    isOkB (uploadFile ⟨[]⟩ 0
        ⟨"data.csv", "text/csv",
          [⟨"Jane", "jane@x.com", .int 30⟩, ⟨"John3", "a@b.c", .int 5⟩], [], []⟩).response =
      false :=
  first_invalid_record_aborts_batch ⟨[]⟩ 0
    ⟨"data.csv", "text/csv",
      [⟨"Jane", "jane@x.com", .int 30⟩, ⟨"John3", "a@b.c", .int 5⟩], [], []⟩
    [⟨"Jane", "jane@x.com", .int 30⟩, ⟨"John3", "a@b.c", .int 5⟩]
    1 ⟨"John3", "a@b.c", .int 5⟩ RecField.name []
    (by decide) (by decide) (by decide) rfl rfl

/-! ## Claims C8 and C9: accepted records -/

theorem validate_ok_fields (nm em : String) (v : PyVal) (n : Int)
    (h1 : nm.toList.all (fun c => c.isAlpha || c == ' ') = true)
    (h2 : nm.toList.any Char.isAlpha = true)
    (h3 : emailSearch em = true)
    (hAge : ageResult v = .ok n) :
    validateOnboardingData ⟨nm, em, v⟩ = .ok ⟨nm, em, n⟩ := by
  obtain ⟨c, hcmem, hcalpha⟩ := List.any_eq_true.mp h2
  have hcsp : (c != ' ') = true := by
    refine bne_iff_ne.mpr ?_
    intro hceq
    subst hceq
    exact absurd hcalpha (by decide)
  have hmemf : c ∈ nm.toList.filter (fun c => c != ' ') :=
    List.mem_filter.mpr ⟨hcmem, hcsp⟩
  have hlen : ¬ nm.toList.length < 1 := by
    have := List.length_pos.mpr (List.ne_nil_of_mem hcmem)
    omega
  have hie : (nm.toList.filter (fun c => c != ' ')).isEmpty = false := by
    cases hq : (nm.toList.filter (fun c => c != ' ')).isEmpty
    · rfl
    · exact absurd (List.isEmpty_iff.mp hq) (List.ne_nil_of_mem hmemf)
  have hall : (nm.toList.filter (fun c => c != ' ')).all Char.isAlpha = true := by
    refine List.all_eq_true.mpr ?_
    intro d hd
    obtain ⟨hdl, hdne⟩ := List.mem_filter.mp hd
    have := List.all_eq_true.mp h1 d hdl
    rcases Bool.or_eq_true_iff.mp this with hda | hdsp
    · exact hda
    · exact absurd (eq_of_beq hdsp) (bne_iff_ne.mp hdne)
  have hnf : nameFails nm = false := by
    simp only [nameFails, pyIsAlphaStr, pyRemoveSpaces, toList_mk, hie, hall,
      decide_eq_false hlen]
    rfl
  have hfe : fieldErrors ⟨nm, em, v⟩ = [] := by
    unfold fieldErrors
    dsimp only
    rw [hnf, h3, hAge]
    simp
  unfold validateOnboardingData
  rw [if_pos hfe]
  dsimp only
  rw [hAge]

/-- Counterexample for C8: the record (name " ", email "a@b.c", age 1)
meets every hypothesis of the claim - the name is non-empty and consists
only of (zero) alphabetic characters and spaces, the email is
well-formed, the age is a positive integer - yet validation fails on the
name field, because after removing spaces the custom validator calls
`isalpha()` on the empty string, which is False in Python. -/
theorem all_space_name_rejected :
    (" " : String) ≠ "" ∧
    " ".toList.all (fun c => c.isAlpha || c == ' ') = true ∧
    emailSearch "a@b.c" = true ∧
    (0 : Int) < 1 ∧
    validateOnboardingData ⟨" ", "a@b.c", .int 1⟩ = .error [RecField.name] :=
  ⟨by decide, by decide, by decide, by decide, by rfl⟩

/-- Claim C8 as amended: a record whose name consists only of alphabetic
characters and spaces and contains at least one alphabetic character,
whose email matches the pattern, and whose age is an integer strictly
greater than 0, validates successfully and is returned unchanged. -/
theorem valid_record_accepted (nm em : String) (n : Int)
    (h1 : nm.toList.all (fun c => c.isAlpha || c == ' ') = true)
    (h2 : nm.toList.any Char.isAlpha = true)
    (h3 : emailSearch em = true)
    (h4 : 0 < n) :
    validateOnboardingData ⟨nm, em, .int n⟩ = .ok ⟨nm, em, n⟩ := by
  refine validate_ok_fields nm em (.int n) n h1 h2 h3 ?_
  simp only [ageResult, pyIntLax]
  rw [if_neg (by omega)]

/-- Witness for the amended C8 at (Jane Doe, jane@x.com, 30). -/
theorem valid_record_accepted_witness :
    "Jane Doe".toList.all (fun c => c.isAlpha || c == ' ') = true ∧
    "Jane Doe".toList.any Char.isAlpha = true ∧
    emailSearch "jane@x.com" = true ∧
    (0 : Int) < 30 ∧
    validateOnboardingData ⟨"Jane Doe", "jane@x.com", .int 30⟩ =
      .ok ⟨"Jane Doe", "jane@x.com", 30⟩ :=
  ⟨by decide, by decide, by decide, by decide,
    valid_record_accepted "Jane Doe" "jane@x.com" 30
      (by decide) (by decide) (by decide) (by decide)⟩

/-- Counterexample for C9: the claim quantifies over every record whose
age is a digit string, but such a record still fails validation when
another field is invalid - here the non-alphabetic name John3 - so
validation does not succeed for every record with a digit-string age. -/
theorem digit_age_alone_not_sufficient :
    pyIsDigitStr "30" = true ∧
    intOfDigits "30" = 30 ∧
    validateOnboardingData ⟨"John3", "a@b.c", .str "30"⟩ = .error [RecField.name] :=
  ⟨by decide, by decide, by rfl⟩

/-- Claim C9 as amended: for records whose name and email pass their
checks, an age given as the digit string of a positive integer is
accepted, and the validated record carries that integer - the age was
coerced although the input was not an integer. -/
theorem digit_string_age_coerced (nm em s : String)
    (h1 : nm.toList.all (fun c => c.isAlpha || c == ' ') = true)
    (h2 : nm.toList.any Char.isAlpha = true)
    (h3 : emailSearch em = true)
    (h5 : pyIsDigitStr s = true)
    (h6 : 0 < intOfDigits s) :
    validateOnboardingData ⟨nm, em, .str s⟩ = .ok ⟨nm, em, (intOfDigits s : Int)⟩ := by
  refine validate_ok_fields nm em (.str s) _ h1 h2 h3 ?_
  have hsome : pyIntLax (.str s) = some ((intOfDigits s : Int)) := by
    simp only [pyIntLax]
    rw [if_pos h5]
  simp only [ageResult, hsome]
  rw [if_neg (by omega)]

/-- Witness for the amended C9 at (John, a@b.c, "30"). -/
theorem digit_string_age_coerced_witness :
    "John".toList.all (fun c => c.isAlpha || c == ' ') = true ∧
    "John".toList.any Char.isAlpha = true ∧
    emailSearch "a@b.c" = true ∧
    pyIsDigitStr "30" = true ∧
    0 < intOfDigits "30" ∧
    validateOnboardingData ⟨"John", "a@b.c", .str "30"⟩ =
      .ok ⟨"John", "a@b.c", (intOfDigits "30" : Int)⟩ :=
  ⟨by decide, by decide, by decide, by decide, by decide,
    digit_string_age_coerced "John" "a@b.c" "30"
      (by decide) (by decide) (by decide) (by decide) (by decide)⟩
